import Mathlib

/-
  Verification of src/native/plugins/ios/IAACHelper.h.

  Modelling conventions:
  - A nullable pointer to text (const char* or NSString*) is Option String;
    none is NULL/nil.  Strings are taken at the level of their UTF-8
    content; C string content is NUL-free by the C string representation,
    and CreateNSString/CStringCopy copy that content unchanged.
  - JSON values are the inductive JVal; an NSDictionary carrying JSON
    content is a List (String × JVal) of its key/value pairs.
  - NSJSONSerialization is platform code, not part of this repository.
    It is modelled as an abstract JSONCodec record: serialize is
    dataWithJSONObject composed with the UTF-8 decoding of the data
    (none on serialization failure), and parse is JSONObjectWithData,
    returning the parsed object (none when parsing produced nothing)
    together with the NSError out-parameter (none when no error was
    reported).
  - NSLog output is modelled explicitly: each function that can log
    returns its result paired with the list of log lines it emitted.
-/

namespace IAACHelper

/-- JSON values as produced by the platform JSON codec. -/
inductive JVal : Type where
  | jnull : JVal
  | jbool : Bool → JVal
  | jnum : Int → JVal
  | jstr : String → JVal
  | jarr : List JVal → JVal
  | jobj : List (String × JVal) → JVal
deriving Repr

/-- CreateNSString: return string ? stringWithUTF8String(string) : nil.
    On a non-NULL pointer it yields the NSString with the same UTF-8
    content; on NULL it yields nil. -/
def CreateNSString (s : Option String) : Option String :=
  match s with
  | some str => some str
  | none => none

/-- CStringCopy: nil yields NULL; otherwise malloc a buffer and strcpy
    the UTF-8 content of the NSString into it, yielding an owned C
    string with the same content. -/
def CStringCopy (s : Option String) : Option String :=
  match s with
  | none => none
  | some str => some str

/-- Abstract model of the NSJSONSerialization platform codec. -/
structure JSONCodec where
  serialize : List (String × JVal) → Option String
  parse : String → Option JVal × Option String

/-- Log line emitted by DictionaryToJSON on serialization failure. -/
def dictionaryToJSONErrorLog : String :=
  "[Bridge] Dictionary to JSON conversion error"

/-- Log line emitted by JSONToDictionary on parse or shape failure. -/
def jsonToDictionaryErrorLog : String :=
  "[Bridge] JSON to Dictionary conversion error"

/-- DictionaryToJSON: nil dictionary yields NULL with no log; otherwise
    serialize through the codec; on failure log the diagnostic and
    yield NULL; on success decode the data to an NSString and hand it
    to CStringCopy. -/
def DictionaryToJSON (c : JSONCodec) (dict : Option (List (String × JVal))) :
    Option String × List String :=
  match dict with
  | none => (none, [])
  | some d =>
    match c.serialize d with
    | none => (none, [dictionaryToJSONErrorLog])
    | some jsonString => (CStringCopy (some jsonString), [])

/-- Test used by JSONToDictionary: isKindOfClass NSDictionary, where
    messaging a nil object answers false. -/
def isDictObj : Option JVal → Bool
  | some (JVal.jobj _) => true
  | _ => false

/-- Cast of the parsed object to NSDictionary content, meaningful once
    isDictObj holds. -/
def asDict : Option JVal → Option (List (String × JVal))
  | some (JVal.jobj fields) => some fields
  | _ => none

/-- JSONToDictionary: NULL text yields nil with no log; otherwise the
    text goes through CreateNSString and dataUsingEncoding into the
    codec; if the NSError out-parameter is set or the parsed top-level
    object is not an NSDictionary, log the diagnostic and yield nil;
    otherwise yield the parsed dictionary. -/
def JSONToDictionary (c : JSONCodec) (jsonString : Option String) :
    Option (List (String × JVal)) × List String :=
  match jsonString with
  | none => (none, [])
  | some js =>
    match CreateNSString (some js) with
    | none => (none, [])
    | some s =>
      let parsed := c.parse s
      if parsed.2.isSome || !(isDictObj parsed.1) then
        (none, [jsonToDictionaryErrorLog])
      else
        (asDict parsed.1, [])

/-- An se::Object as seen by SeValueToNSString: only its function-ness
    is observed. -/
structure SeObject where
  isFunction : Bool
deriving Repr

/-- An se::Value as observed by SeValueToNSString: a string value, an
    object value whose toObject pointer may be null, or any other kind
    of value (null, undefined, number, boolean, ...). -/
inductive SeValue : Type where
  | str : String → SeValue
  | obj : Option SeObject → SeValue
  | other : SeValue
deriving Repr

/-- se::Value::isString. -/
def SeValue.isString : SeValue → Bool
  | .str _ => true
  | _ => false

/-- se::Value::isObject. -/
def SeValue.isObject : SeValue → Bool
  | .obj _ => true
  | _ => false

/-- se::Value::toString().c_str(): the UTF-8 content of a string value. -/
def SeValue.toString : SeValue → String
  | .str s => s
  | _ => ""

/-- se::Value::toObject: the se::Object pointer of an object value,
    possibly null. -/
def SeValue.toObject : SeValue → Option SeObject
  | .obj o => o
  | _ => none

/-- SeValueToNSString: a string value yields its UTF-8 content through
    CreateNSString; an object value yields the function marker when the
    object pointer is non-null and the object is a function, and the
    object marker otherwise; any other value yields the unknown
    marker. -/
def SeValueToNSString (val : SeValue) : Option String :=
  if val.isString then
    CreateNSString (some val.toString)
  else if val.isObject then
    match val.toObject with
    | some obj => if obj.isFunction then some "[JS Function]" else some "[JS Object]"
    | none => some "[JS Object]"
  else
    some "[Unknown JS Value]"

/-- Modelled from the spec: a mapping is JSON-representable for a codec
    when serialization succeeds and parsing the produced text
    reproduces the mapping as the top-level object with no reported
    error.  This is the round-trip contract of the platform codec
    (NSJSONSerialization), which is not code of this repository. -/
def JSONRepresentable (c : JSONCodec) (d : List (String × JVal)) : Prop :=
  ∃ s, c.serialize d = some s ∧ c.parse s = (some (JVal.jobj d), none)

/-- Sample serializer used to witness the codec-parametric theorems:
    it serializes only the empty mapping. -/
def sampleSerialize : List (String × JVal) → Option String
  | [] => some "\x7b\x7d"
  | _ => none

/-- Sample parser used to witness the codec-parametric theorems. -/
def sampleParse : String → Option JVal × Option String
  | "\x7b\x7d" => (some (JVal.jobj []), none)
  | "[1,2,3]" => (some (JVal.jarr [JVal.jnum 1, JVal.jnum 2, JVal.jnum 3]), none)
  | _ => (none, some "sample parse failure")

/-- Sample codec packaging the sample serializer and parser. -/
def sampleCodec : JSONCodec :=
  { serialize := sampleSerialize, parse := sampleParse }

/-- C1: for every dictionary containing only JSON-representable
    content, applying DictionaryToJSON and then JSONToDictionary to the
    result yields a non-nil dictionary equal to the original. -/
theorem dictionary_json_roundtrip (c : JSONCodec) (d : List (String × JVal))
    (h : JSONRepresentable c d) :
    (JSONToDictionary c (DictionaryToJSON c (some d)).1).1 = some d := by
  obtain ⟨s, hser, hpar⟩ := h
  simp [DictionaryToJSON, hser, CStringCopy, JSONToDictionary, CreateNSString, hpar,
    isDictObj, asDict]

/-- Witness for C1 at the sample codec and the empty mapping. -/
theorem dictionary_json_roundtrip_witness :
    JSONRepresentable sampleCodec [] ∧
      (JSONToDictionary sampleCodec (DictionaryToJSON sampleCodec (some [])).1).1 = some [] :=
  ⟨⟨"\x7b\x7d", rfl, rfl⟩,
    dictionary_json_roundtrip sampleCodec [] ⟨"\x7b\x7d", rfl, rfl⟩⟩

/-- C2: converting a non-nil string to an owned C string buffer with
    CStringCopy and converting that buffer back with CreateNSString
    reproduces the string with the same UTF-8 content. -/
theorem cstring_roundtrip (s : String) :
    CreateNSString (CStringCopy (some s)) = some s := rfl

/-- Witness for C2 at a concrete string. -/
theorem cstring_roundtrip_witness :
    CreateNSString (CStringCopy (some "abc")) = some "abc" :=
  cstring_roundtrip "abc"

/-- C3: classification order of SeValueToNSString: a string value
    yields its UTF-8 content; an object value whose object is a
    function yields the function marker; an object value whose object
    is not a function yields the object marker; any other value yields
    the unknown marker, so function-ness is decided before generic
    object-ness. -/
theorem seValueToNSString_classification (v : SeValue) :
    (∀ s, v = SeValue.str s → SeValueToNSString v = some s) ∧
    (∀ o, v = SeValue.obj (some o) → o.isFunction = true →
      SeValueToNSString v = some "[JS Function]") ∧
    (∀ o, v = SeValue.obj (some o) → o.isFunction = false →
      SeValueToNSString v = some "[JS Object]") ∧
    (v = SeValue.other → SeValueToNSString v = some "[Unknown JS Value]") := by
  refine ⟨?_, ?_, ?_, ?_⟩
  · rintro s rfl
    rfl
  · rintro o rfl hf
    simp [SeValueToNSString, SeValue.isString, SeValue.isObject, SeValue.toObject, hf]
  · rintro o rfl hf
    simp [SeValueToNSString, SeValue.isString, SeValue.isObject, SeValue.toObject, hf]
  · rintro rfl
    rfl

/-- Witness for C3 at a concrete function-valued object. -/
theorem seValueToNSString_classification_witness :
    SeValueToNSString (SeValue.obj (some ⟨true⟩)) = some "[JS Function]" :=
  (seValueToNSString_classification (SeValue.obj (some ⟨true⟩))).2.1 ⟨true⟩ rfl rfl

/-- C5: for every non-null input text, JSONToDictionary yields nil and
    logs a diagnostic whenever the codec reports an error or the
    top-level parsed value is not a dictionary; in particular a
    top-level array such as [1,2,3] is rejected; and a non-nil result
    is always the content of a parsed dictionary. -/
theorem jsonToDictionary_rejects_non_mapping (c : JSONCodec) :
    (∀ s, ((c.parse s).2.isSome = true ∨ isDictObj (c.parse s).1 = false) →
      JSONToDictionary c (some s) = (none, [jsonToDictionaryErrorLog])) ∧
    (∀ l, c.parse "[1,2,3]" = (some (JVal.jarr l), none) →
      (JSONToDictionary c (some "[1,2,3]")).1 = none) ∧
    (∀ s d, (JSONToDictionary c (some s)).1 = some d →
      (c.parse s).1 = some (JVal.jobj d)) := by
  have hreject : ∀ s, ((c.parse s).2.isSome = true ∨ isDictObj (c.parse s).1 = false) →
      JSONToDictionary c (some s) = (none, [jsonToDictionaryErrorLog]) := by
    intro s hs
    simp only [JSONToDictionary, CreateNSString]
    rcases hs with hs | hs <;> simp [hs]
  refine ⟨hreject, ?_, ?_⟩
  · intro l hl
    have := hreject "[1,2,3]" (Or.inr (by simp [hl, isDictObj]))
    simp [this]
  · intro s d hd
    by_cases hcase : (c.parse s).2.isSome = true ∨ isDictObj (c.parse s).1 = false
    · rw [hreject s hcase] at hd
      simp at hd
    · push_neg at hcase
      obtain ⟨herr, hdict⟩ := hcase
      simp only [Bool.not_eq_true] at herr
      simp only [Bool.not_eq_false] at hdict
      simp only [JSONToDictionary, CreateNSString, herr, hdict, Bool.not_true,
        Bool.or_false, if_false, Bool.false_eq_true] at hd
      revert hd hdict
      cases hp : (c.parse s).1 with
      | none => simp [isDictObj, asDict]
      | some j =>
        cases j with
        | jobj fields =>
          simp only [isDictObj, asDict, Option.some.injEq]
          intro _ hfields
          rw [hfields]
        | jnull => simp [isDictObj]
        | jbool b => simp [isDictObj]
        | jnum n => simp [isDictObj]
        | jstr t => simp [isDictObj]
        | jarr xs => simp [isDictObj]

/-- Witness for C5 at the sample codec on the text [1,2,3]. -/
theorem jsonToDictionary_rejects_non_mapping_witness :
    (JSONToDictionary sampleCodec (some "[1,2,3]")).1 = none :=
  (jsonToDictionary_rejects_non_mapping sampleCodec).2.1
    [JVal.jnum 1, JVal.jnum 2, JVal.jnum 3] rfl

/-- C6: each conversion function maps a null/absent input to an absent
    result with no log line. -/
theorem null_inputs_silent_absent (c : JSONCodec) :
    CreateNSString none = none ∧ CStringCopy none = none ∧
    DictionaryToJSON c none = (none, []) ∧ JSONToDictionary c none = (none, []) :=
  ⟨rfl, rfl, rfl, rfl⟩

/-- Witness for C6 at the sample codec. -/
theorem null_inputs_silent_absent_witness :
    CreateNSString none = none ∧ CStringCopy none = none ∧
    DictionaryToJSON sampleCodec none = (none, []) ∧
    JSONToDictionary sampleCodec none = (none, []) :=
  null_inputs_silent_absent sampleCodec

/-- C7: when serialization of a non-nil dictionary fails, DictionaryToJSON
    logs the diagnostic and yields NULL; the failure is reported to the
    caller as an absent result, never as a program-terminating fault
    (the function is total and its only outputs are a result and its
    log lines). -/
theorem dictionaryToJSON_failure_reported (c : JSONCodec) (d : List (String × JVal))
    (h : c.serialize d = none) :
    DictionaryToJSON c (some d) = (none, [dictionaryToJSONErrorLog]) := by
  simp [DictionaryToJSON, h]

/-- Witness for C7 at the sample codec, which cannot serialize a
    non-empty mapping. -/
theorem dictionaryToJSON_failure_reported_witness :
    sampleCodec.serialize [("k", JVal.jnull)] = none ∧
      DictionaryToJSON sampleCodec (some [("k", JVal.jnull)]) =
        (none, [dictionaryToJSONErrorLog]) :=
  ⟨rfl, dictionaryToJSON_failure_reported sampleCodec [("k", JVal.jnull)] rfl⟩

/-- C8: SeValueToNSString never fails and always yields a non-nil
    string for every se::Value. -/
theorem seValueToNSString_total (v : SeValue) :
    (SeValueToNSString v).isSome = true := by
  cases v with
  | str s => rfl
  | obj o =>
    cases o with
    | none => rfl
    | some obj =>
      simp only [SeValueToNSString, SeValue.isString, SeValue.isObject, SeValue.toObject]
      cases obj.isFunction <;> simp
  | other => rfl

/-- Witness for C8 at a non-string, non-object value. -/
theorem seValueToNSString_total_witness :
    (SeValueToNSString SeValue.other).isSome = true :=
  seValueToNSString_total SeValue.other

/-- C9: an object value whose toObject pointer is null yields the
    object marker; the isFunction call is guarded by the null test, so
    the null pointer is never dereferenced. -/
theorem seValueToNSString_null_object (v : SeValue)
    (hobj : v.isObject = true) (hnull : v.toObject = none) :
    SeValueToNSString v = some "[JS Object]" := by
  cases v with
  | str s => simp [SeValue.isObject] at hobj
  | obj o =>
    cases o with
    | none => rfl
    | some obj => simp [SeValue.toObject] at hnull
  | other => simp [SeValue.isObject] at hobj

/-- Witness for C9 at the object value with a null object pointer. -/
theorem seValueToNSString_null_object_witness :
    SeValueToNSString (SeValue.obj none) = some "[JS Object]" :=
  seValueToNSString_null_object (SeValue.obj none) rfl rfl

/-- C10: JSONToDictionary yields a non-nil result exactly when the
    codec reported no error and the parsed top-level value is a
    dictionary. -/
theorem jsonToDictionary_success_iff (c : JSONCodec) (s : String) :
    (JSONToDictionary c (some s)).1.isSome = true ↔
      ((c.parse s).2 = none ∧ isDictObj (c.parse s).1 = true) := by
  constructor
  · intro h
    by_contra hcontra
    have hfail : (c.parse s).2.isSome = true ∨ isDictObj (c.parse s).1 = false := by
      by_cases herr : (c.parse s).2 = none
      · refine Or.inr ?_
        rcases Bool.eq_false_or_eq_true (isDictObj (c.parse s).1) with ht | hf
        · exact absurd ⟨herr, ht⟩ hcontra
        · exact hf
      · exact Or.inl (Option.isSome_iff_ne_none.mpr herr)
    simp only [JSONToDictionary, CreateNSString] at h
    rcases hfail with hf | hf <;> simp [hf] at h
  · rintro ⟨herr, hdict⟩
    simp only [JSONToDictionary, CreateNSString, herr, hdict]
    cases hp : (c.parse s).1 with
    | none => simp [isDictObj] at hdict; simp [hp] at hdict
    | some j =>
      cases j <;> simp [hp, isDictObj] at hdict ⊢
      simp [asDict]

/-- Witness for C10 at the sample codec on the empty-object text. -/
theorem jsonToDictionary_success_iff_witness :
    (JSONToDictionary sampleCodec (some "\x7b\x7d")).1.isSome = true :=
  (jsonToDictionary_success_iff sampleCodec "\x7b\x7d").mpr ⟨rfl, rfl⟩

end IAACHelper
